import Mathlib

/-!
# Verification of the post-processing compositor (`Scene.cpp`)

Shallow embedding of the post-processing code of the repository.

Modelling conventions:
* C `float` values are modelled as exact rationals (`ℚ`); every arithmetic
  operation performed on them in the source is an exact rational operation here.
* The Direct3D immediate context is modelled as an explicit bind-state record
  (`Ctx`): current render target, the two pixel-shader resource slots that the
  code uses (slot 0 and slot 1), the current pixel shader, and the GPU-side
  copy of the post-processing constant buffer.  `Draw` records a `Pass`
  (a snapshot of the bindings at the moment the draw is issued) and updates a
  symbolic image memory, one `Image` per texture.
* Scene geometry rendering (`RenderSceneFromCamera`) is an external
  collaborator per the architecture: it is abstracted to a single write of the
  raw scene image into the currently bound render target, leaving slot 0 bound
  to an external model texture, exactly the bindings it leaves behind.
* Input polling is external: each per-frame `UpdateScene` step receives the
  key states and the elapsed frame time as an explicit `Inp` record.
* Camera, lights and the FPS window title are out of scope (they touch none of
  the state the compositor reads).
-/

namespace Scene

/-- The `PostProcess` enum (`Scene.cpp` line 33). -/
inductive PostProcess where
  | None
  | PyramidBlur
  | Retro
  | Spiral
  deriving DecidableEq, BEq, Repr

/-- The textures that participate in post-processing: the scene texture, the
general post-process texture, the secondary (bloom) texture, the swap-chain
back buffer, and a stand-in for the external model/diffuse textures bound
while the 3D scene itself is rendered. -/
inductive Tex where
  | scene
  | postProcess
  | bloom
  | backBuffer
  | external
  deriving DecidableEq, BEq, Repr

/-- The pixel shaders bound by the code paths under verification. -/
inductive PShader where
  | nullPS
  | pixelLighting
  | tintedTexture
  | tint
  | gaussH
  | gaussV
  | blur
  | underwater
  | pixellate
  | bitColour
  | brightFilter
  | combine
  | copy
  | noise
  | pyramid
  deriving DecidableEq, BEq, Repr

/-- `CVector3`, with components modelled as exact rationals. -/
structure CVector3 where
  x : ℚ
  y : ℚ
  z : ℚ
  deriving DecidableEq, Repr

/-- The fields of `PostProcessingConstants` written by `PostProcessing`. -/
structure Consts where
  blurBellcurveStrength : ℚ
  blurRadius : ℚ
  tintColour : CVector3
  tintColour2 : CVector3
  waterTintColour : CVector3
  waterTintColour2 : CVector3
  hWave : ℚ
  vWave : ℚ
  noiseScaleX : ℚ
  noiseScaleY : ℚ
  bitColour : ℚ
  brightFilterThreshold : ℚ
  spiralLevel : ℚ
  deriving DecidableEq, Repr

/-- All-zero initial contents of the constant-buffer structure. -/
def constsZero : Consts :=
  { blurBellcurveStrength := 0, blurRadius := 0
    tintColour := ⟨0, 0, 0⟩, tintColour2 := ⟨0, 0, 0⟩
    waterTintColour := ⟨0, 0, 0⟩, waterTintColour2 := ⟨0, 0, 0⟩
    hWave := 0, vWave := 0, noiseScaleX := 0, noiseScaleY := 0
    bitColour := 0, brightFilterThreshold := 0, spiralLevel := 0 }

/-- Symbolic image contents of a texture: the raw rendered scene, a cleared
target, the unbound (null) source, or the full-screen output of a shader
applied to the images read through slots 0 and 1 under a given constant
buffer. -/
inductive Image where
  | null
  | cleared
  | sceneRaw
  | shaderOut (ps : PShader) (buf : Consts) (src0 src1 : Image)

/-- One issued full-screen draw: a snapshot of the pixel-stage bindings at the
moment `Draw(4, 0)` is called. -/
structure Pass where
  ps : PShader
  rt : Tex
  src0 : Option Tex
  src1 : Option Tex
  buf : Consts
  deriving DecidableEq, Repr

/-- The Direct3D context state that the post-processing code manipulates. -/
structure Ctx where
  rt : Tex
  srv0 : Option Tex
  srv1 : Option Tex
  ps : PShader
  buf : Consts
  mem : Tex → Image

/-- Read the image currently visible through a shader-resource slot. -/
def readMem (m : Tex → Image) : Option Tex → Image
  | some t => m t
  | none => Image.null

/-- A full-screen draw overwrites the whole render target. -/
def writeMem (m : Tex → Image) (t : Tex) (img : Image) : Tex → Image :=
  fun u => if u = t then img else m u

/-- `gD3DContext->Draw(4, 0)`: records the pass and overwrites the bound
render target with the shader output computed from the bound sources. -/
def Draw (c : Ctx) : Pass × Ctx :=
  let out := Image.shaderOut c.ps c.buf (readMem c.mem c.srv0) (readMem c.mem c.srv1)
  (⟨c.ps, c.rt, c.srv0, c.srv1, c.buf⟩, { c with mem := writeMem c.mem c.rt out })

/-- The mutable scene-level globals that the claims are about
(`Scene.cpp` lines 41, 162-174, 317-318). -/
structure GameState where
  tintColour : CVector3
  tintColour2 : CVector3
  Tint : Bool
  Blur : Bool
  GaussianBlur : Bool
  Underwater : Bool
  Retro : Bool
  Bloom : Bool
  sel : PostProcess
  blurStrength : ℚ
  blurCurve : ℚ
  bitColour : ℚ
  pixelSize : ℚ
  timer : ℚ
  consts : Consts
  wiggle : ℚ
  deriving Repr

/-- `Min(f1, f2, f3)` (`Scene.cpp` line 184). -/
def Min (f1 f2 f3 : ℚ) : ℚ :=
  let fMin := f1
  let fMin := if f2 < fMin then f2 else fMin
  if f3 < fMin then f3 else fMin

/-- `Max(f1, f2, f3)` (`Scene.cpp` line 197). -/
def Max (f1 f2 f3 : ℚ) : ℚ :=
  let fMax := f1
  let fMax := if f2 > fMax then f2 else fMax
  if f3 > fMax then f3 else fMax

/-- `RGBToHSL` (`Scene.cpp` line 212).  Note the source reads `rgb.y` into
`fB` and `rgb.z` into `fG`.  In the source the final `else if (max == fB)`
branch is the only remaining possibility, so it is the `else` branch here. -/
def RGBToHSL (rgb : CVector3) : CVector3 :=
  let fR := rgb.x
  let fB := rgb.y
  let fG := rgb.z
  let min := Min fR fB fG
  let max := Max fR fB fG
  let L := 50 * (max + min)
  if min = max then ⟨0, 0, L⟩
  else
    let S := if L < 50 then 100 * (max - min) / (max + min)
             else 100 * (max - min) / (2 - max - min)
    let H := if max = fR then 60 * (fG - fB) / (max - min)
             else if max = fG then 60 * (fB - fR) / (max - min) + 120
             else 60 * (fR - fG) / (max - min) + 240
    let H := if H < 0 then H + 360 else H
    ⟨H, S, L⟩

/-- C truncation of a rational toward zero (the effect of casting a float to
`int`). -/
def ratTrunc (q : ℚ) : ℤ :=
  if q < 0 then -⌊-q⌋ else ⌊q⌋

/-- C `fmodf`: remainder with quotient truncated toward zero. -/
def qfmod (a b : ℚ) : ℚ :=
  a - b * (ratTrunc (a / b) : ℚ)

/-- `HSLToRGB` (`Scene.cpp` line 247).  The source assigns the float inputs to
`int` locals, truncating them, and returns `CVector3(R, G, B)` with `G` in the
`y` component.  When `H` falls in none of the six ranges all of `Rt`, `Gt`,
`Bt` keep their initial value 0. -/
def HSLToRGB (hsl : CVector3) : CVector3 :=
  let H : ℤ := ratTrunc hsl.x
  let S : ℤ := ratTrunc hsl.y
  let L : ℤ := ratTrunc hsl.z
  let St : ℚ := (S : ℚ) / 100
  let Lt : ℚ := (L : ℚ) / 100
  let C := (1 - |2 * Lt - 1|) * St
  let X := C * (1 - |qfmod ((H : ℚ) / 60) 2 - 1|)
  let m := Lt - C / 2
  let RGBt : ℚ × ℚ × ℚ :=
    if 0 ≤ H ∧ H < 60 then (C, X, 0)
    else if 60 ≤ H ∧ H < 120 then (X, C, 0)
    else if 120 ≤ H ∧ H < 180 then (0, C, X)
    else if 180 ≤ H ∧ H < 240 then (0, X, C)
    else if 240 ≤ H ∧ H < 300 then (X, 0, C)
    else if 300 ≤ H ∧ H < 360 then (C, 0, X)
    else (0, 0, 0)
  ⟨RGBt.1 + m, RGBt.2.1 + m, RGBt.2.2 + m⟩

/-- Initial values of the globals: `blurStrength = 50`, `blurCurve = 0.03`,
`timer = 0`, `bitColour = 90`, `pixelSize = 10` (lines 162-166), the effect
flags cleared by `InitScene` (`Bloom` is never assigned there but is a
zero-initialised global, hence `false`), `gCurrentPostProcess = None`
(line 41), and the two animated tint colours (lines 317-318). -/
def initState : GameState :=
  { tintColour := RGBToHSL ⟨0, 1, 1⟩
    tintColour2 := RGBToHSL ⟨1, 1, 0⟩
    Tint := false, Blur := false, GaussianBlur := false
    Underwater := false, Retro := false, Bloom := false
    sel := PostProcess.None
    blurStrength := 50, blurCurve := 3/100
    bitColour := 90, pixelSize := 10
    timer := 0, consts := constsZero, wiggle := 0 }

/-- Context state before a frame: nothing bound. -/
def initCtx : Ctx :=
  { rt := Tex.backBuffer, srv0 := none, srv1 := none
    ps := PShader.nullPS, buf := constsZero, mem := fun _ => Image.null }

/-- `RenderAndReset` (`Scene.cpp` line 669): upload the constants, draw the
quad, unbind slot 0, then re-target the scene texture, switch to the copy
shader, bind the post-process texture as source, upload, draw, and unbind
slot 0 again.  Slot 1 is never touched. -/
def RenderAndReset (s : GameState) (c : Ctx) : List Pass × Ctx :=
  let c := { c with buf := s.consts }
  let d1 := Draw c
  let c := { d1.2 with srv0 := none }
  let c := { c with rt := Tex.scene, ps := PShader.copy, srv0 := some Tex.postProcess }
  let c := { c with buf := s.consts }
  let d2 := Draw c
  let c := { d2.2 with srv0 := none }
  ([d1.1, d2.1], c)

/-- The `if (Tint)` block (`Scene.cpp` line 720). -/
def TintBlock (s : GameState) (c : Ctx) : List Pass × GameState × Ctx :=
  let c := { c with rt := Tex.postProcess }
  let s := { s with consts := { s.consts with
    tintColour := HSLToRGB s.tintColour, tintColour2 := HSLToRGB s.tintColour2 } }
  let c := { c with ps := PShader.tint, srv0 := some Tex.scene }
  let rr := RenderAndReset s c
  (rr.1, s, rr.2)

/-- The `if (GaussianBlur)` block (`Scene.cpp` line 737): horizontal pass,
then vertical pass; both read the scene texture (the running frame result). -/
def GaussBlock (s : GameState) (c : Ctx) : List Pass × GameState × Ctx :=
  let c := { c with rt := Tex.postProcess }
  let s := { s with consts := { s.consts with
    blurBellcurveStrength := s.blurCurve, blurRadius := s.blurStrength } }
  let c := { c with ps := PShader.gaussH, srv0 := some Tex.scene }
  let rr1 := RenderAndReset s c
  let c := { rr1.2 with rt := Tex.postProcess, ps := PShader.gaussV, srv0 := some Tex.scene }
  let rr2 := RenderAndReset s c
  (rr1.1 ++ rr2.1, s, rr2.2)

/-- The `if (Blur)` block (`Scene.cpp` line 765). -/
def BlurBlock (s : GameState) (c : Ctx) : List Pass × GameState × Ctx :=
  let c := { c with rt := Tex.postProcess }
  let s := { s with consts := { s.consts with
    blurBellcurveStrength := s.blurCurve, blurRadius := s.blurStrength } }
  let c := { c with ps := PShader.blur, srv0 := some Tex.scene }
  let rr := RenderAndReset s c
  (rr.1, s, rr.2)

/-- The `if (Underwater)` block (`Scene.cpp` line 781): fixed tint colours and
two wave phases derived from the accumulated timer. -/
def UnderwaterBlock (s : GameState) (c : Ctx) : List Pass × GameState × Ctx :=
  let c := { c with rt := Tex.postProcess }
  let s := { s with consts := { s.consts with
    waterTintColour := ⟨0, 1, 1⟩, waterTintColour2 := ⟨0, 1/2, 1⟩
    hWave := s.timer, vWave := s.timer / 2 } }
  let c := { c with ps := PShader.underwater, srv0 := some Tex.scene }
  let rr := RenderAndReset s c
  (rr.1, s, rr.2)

/-- The `if (Retro)` block (`Scene.cpp` line 800): pixelate then posterize. -/
def RetroBlock (s : GameState) (c : Ctx) : List Pass × GameState × Ctx :=
  let c := { c with rt := Tex.postProcess }
  let s := { s with consts := { s.consts with
    noiseScaleX := s.pixelSize, noiseScaleY := s.pixelSize } }
  let c := { c with ps := PShader.pixellate, srv0 := some Tex.scene }
  let rr1 := RenderAndReset s c
  let c := { rr1.2 with rt := Tex.postProcess }
  let s := { s with consts := { s.consts with bitColour := s.bitColour } }
  let c := { c with ps := PShader.bitColour, srv0 := some Tex.scene }
  let rr2 := RenderAndReset s c
  (rr1.1 ++ rr2.1, s, rr2.2)

/-- One of the three inlined draw-and-reset-without-copy sequences inside
the Bloom block: upload constants, draw, unbind slot 0. -/
def DrawNoCopy (s : GameState) (c : Ctx) : Pass × Ctx :=
  let c := { c with buf := s.consts }
  let d := Draw c
  (d.1, { d.2 with srv0 := none })

/-- The `if (Bloom)` block (`Scene.cpp` line 828): bright-pass filter with
threshold 0.7 from scene into the bloom texture, horizontal blur into the
post-process texture, vertical blur back into the bloom texture, then the
combine pass reading the bloom texture (slot 0) and the scene texture
(slot 1, never unbound afterwards) into the post-process texture, finished
by the usual `RenderAndReset`. -/
def BloomBlock (s : GameState) (c : Ctx) : List Pass × GameState × Ctx :=
  let c := { c with rt := Tex.bloom }
  let s := { s with consts := { s.consts with brightFilterThreshold := 7/10 } }
  let c := { c with ps := PShader.brightFilter, srv0 := some Tex.scene }
  let d1 := DrawNoCopy s c
  let c := { d1.2 with rt := Tex.postProcess }
  let s := { s with consts := { s.consts with
    blurBellcurveStrength := s.blurCurve, blurRadius := s.blurStrength } }
  let c := { c with ps := PShader.gaussH, srv0 := some Tex.bloom }
  let d2 := DrawNoCopy s c
  let c := { d2.2 with rt := Tex.bloom, ps := PShader.gaussV, srv0 := some Tex.postProcess }
  let d3 := DrawNoCopy s c
  let c := { d3.2 with rt := Tex.postProcess, ps := PShader.combine }
  let c := { c with srv0 := some Tex.bloom, srv1 := some Tex.scene }
  let rr := RenderAndReset s c
  ([d1.1, d2.1, d3.1] ++ rr.1, s, rr.2)

/-- Stand-in for `cosf` on the spiral wiggle.  Cosine is transcendental and
not representable exactly on rationals; no claim depends on the value of
`spiralLevel` (the Spiral branch issues no draw), only on the fact that the
branch writes it, so any total function is adequate here. -/
def QCos (_q : ℚ) : ℚ := 1

/-- The `else if (gCurrentPostProcess == PostProcess::Spiral)` branch
(`Scene.cpp` line 898): sets the noise shader and the spiral level and
advances the function-static `wiggle`; it issues no draw. -/
def SpiralBlock (frameTime : ℚ) (s : GameState) (c : Ctx) : List Pass × GameState × Ctx :=
  let c := { c with ps := PShader.noise }
  let s := { s with consts := { s.consts with spiralLevel := (1 - QCos s.wiggle) * 4 } }
  let s := { s with wiggle := s.wiggle + 1 * frameTime }
  ([], s, c)

/-- The `else if (gCurrentPostProcess == PostProcess::PyramidBlur)` branch
(`Scene.cpp` line 909). -/
def PyramidBlock (s : GameState) (c : Ctx) : List Pass × GameState × Ctx :=
  let c := { c with rt := Tex.postProcess }
  let c := { c with ps := PShader.pyramid, srv0 := some Tex.scene }
  let rr := RenderAndReset s c
  (rr.1, s, rr.2)

/-- Sequence two compositor steps, concatenating their pass lists. -/
def seqB (r : List Pass × GameState × Ctx)
    (f : GameState → Ctx → List Pass × GameState × Ctx) :
    List Pass × GameState × Ctx :=
  let n := f r.2.1 r.2.2
  (r.1 ++ n.1, n.2)

/-- The body of `PostProcessing` up to (but excluding) the final copy to the
back buffer (`Scene.cpp` lines 699-919): advance the timer, preload the blur
constants (lines 716-717), then walk the fixed `if` chain.  Note that in the
source the Spiral and PyramidBlur branches are `else if`s attached to
`if (Bloom)`. -/
def blocksPart (frameTime : ℚ) (s0 : GameState) (c0 : Ctx) :
    List Pass × GameState × Ctx :=
  let s := { s0 with timer := s0.timer + frameTime }
  let s := { s with consts := { s.consts with
    blurBellcurveStrength := s.blurCurve, blurRadius := s.blurStrength } }
  let r := if s.Tint then TintBlock s c0 else ([], s, c0)
  let r := seqB r (fun s c => if s.GaussianBlur then GaussBlock s c else ([], s, c))
  let r := seqB r (fun s c => if s.Blur then BlurBlock s c else ([], s, c))
  let r := seqB r (fun s c => if s.Underwater then UnderwaterBlock s c else ([], s, c))
  let r := seqB r (fun s c => if s.Retro then RetroBlock s c else ([], s, c))
  seqB r (fun s c =>
    if s.Bloom then BloomBlock s c
    else if s.sel = PostProcess.Spiral then SpiralBlock frameTime s c
    else if s.sel = PostProcess.PyramidBlur then PyramidBlock s c
    else ([], s, c))

/-- `PostProcessing` (`Scene.cpp` line 699): the effect chain followed by the
final copy of the scene texture to the back buffer (lines 921-931; this draw
does not re-upload the constant buffer, and afterwards only slot 0 is
unbound). -/
def PostProcessing (frameTime : ℚ) (s : GameState) (c : Ctx) :
    List Pass × GameState × Ctx :=
  let r := blocksPart frameTime s c
  let c := { r.2.2 with rt := Tex.backBuffer, ps := PShader.copy, srv0 := some Tex.scene }
  let d := Draw c
  (r.1 ++ [d.1], r.2.1, { d.2 with srv0 := none })

/-- The condition of `Scene.cpp` lines 966-972 and 1001-1006: post-processing
is active when any effect flag is set or a legacy post-process is selected. -/
def postActive (s : GameState) : Bool :=
  (s.sel != PostProcess.None) || s.Tint || s.Blur || s.GaussianBlur
    || s.Underwater || s.Retro || s.Bloom

/-- `RenderSceneFromCamera` (`Scene.cpp` line 578), abstracted per the
architecture: the external scene renderer fully covers the bound render
target with the raw scene image, leaving slot 0 on an external model texture
and the tinted-texture shader bound. -/
def RenderSceneFromCamera (c : Ctx) : Ctx :=
  let c := { c with ps := PShader.tintedTexture, srv0 := some Tex.external }
  { c with mem := writeMem c.mem c.rt Image.sceneRaw }

/-- `RenderScene` (`Scene.cpp` line 939): choose and clear the render target
(scene texture when post-processing is active, back buffer otherwise), render
the scene, and run `PostProcessing` only when the same condition holds.  The
returned pass list contains exactly the post-processing passes issued. -/
def RenderScene (frameTime : ℚ) (s : GameState) (c : Ctx) :
    List Pass × GameState × Ctx :=
  let c := if postActive s
    then { c with rt := Tex.scene, mem := writeMem c.mem Tex.scene Image.cleared }
    else { c with rt := Tex.backBuffer, mem := writeMem c.mem Tex.backBuffer Image.cleared }
  let c := RenderSceneFromCamera c
  if postActive s then PostProcessing frameTime s c else ([], s, c)

/-- The discrete input events one `UpdateScene` step consumes, together with
the elapsed frame time: `key1`..`key0` are the `KeyHit` toggles, the rest are
the `KeyHeld` adjustment keys (`Scene.cpp` lines 1029-1056). -/
structure Inp where
  key1 : Bool
  keyF1 : Bool
  key2 : Bool
  key3 : Bool
  key4 : Bool
  key5 : Bool
  key0 : Bool
  keyComma : Bool
  keyPeriod : Bool
  keyK : Bool
  keyL : Bool
  keyV : Bool
  keyB : Bool
  keyF : Bool
  keyG : Bool
  ft : ℚ
  deriving DecidableEq, Repr

/-- An input step with no key active. -/
def noKeys (frameTime : ℚ) : Inp :=
  { key1 := false, keyF1 := false, key2 := false, key3 := false
    key4 := false, key5 := false, key0 := false
    keyComma := false, keyPeriod := false, keyK := false, keyL := false
    keyV := false, keyB := false, keyF := false, keyG := false
    ft := frameTime }

/-- Animated hue advance (`Scene.cpp` lines 1022-1025): add `rate *
frameTime` and reset to 0 when the result exceeds 360. -/
def stepHue (rate frameTime x : ℚ) : ℚ :=
  let y := x + frameTime * rate
  if y > 360 then 0 else y

/-- Blur radius adjustment (`Scene.cpp` lines 1040-1042): decrement on comma,
increment on period, then clamp below at 5. -/
def stepBlurStrength (dec inc : Bool) (v : ℚ) : ℚ :=
  let v := if dec then v - 1 else v
  let v := if inc then v + 1 else v
  if v < 5 then 5 else v

/-- Bell-curve sharpness adjustment (`Scene.cpp` lines 1044-1045): divide by
1.1 on K, multiply by 1.1 on L, no clamp. -/
def stepBlurCurve (dec inc : Bool) (v : ℚ) : ℚ :=
  let v := if dec then v / (11/10) else v
  if inc then v * (11/10) else v

/-- The shared shape of the bit-depth and pixel-size adjustments
(`Scene.cpp` lines 1048-1056): decrement, clamp below at 1, then increment. -/
def stepClamp1 (dec inc : Bool) (v : ℚ) : ℚ :=
  let v := if dec then v - 1 else v
  let v := if v < 1 then 1 else v
  if inc then v + 1 else v

/-- The parts of `UpdateScene` (`Scene.cpp` line 1020) that touch compositor
state: hue animation of the two tint colours, the six effect toggles, the
selector reset on key 0, and the four tunable adjustments.  Camera, light
orbit and the FPS window title are external and touch none of these fields. -/
def UpdateScene (i : Inp) (s : GameState) : GameState :=
  { s with
    tintColour := { s.tintColour with x := stepHue 20 i.ft s.tintColour.x }
    tintColour2 := { s.tintColour2 with x := stepHue 50 i.ft s.tintColour2.x }
    Tint := if i.key1 then !s.Tint else s.Tint
    Blur := if i.keyF1 then !s.Blur else s.Blur
    GaussianBlur := if i.key2 then !s.GaussianBlur else s.GaussianBlur
    Underwater := if i.key3 then !s.Underwater else s.Underwater
    Retro := if i.key4 then !s.Retro else s.Retro
    Bloom := if i.key5 then !s.Bloom else s.Bloom
    sel := if i.key0 then PostProcess.None else s.sel
    blurStrength := stepBlurStrength i.keyComma i.keyPeriod s.blurStrength
    blurCurve := stepBlurCurve i.keyK i.keyL s.blurCurve
    bitColour := stepClamp1 i.keyV i.keyB s.bitColour
    pixelSize := stepClamp1 i.keyF i.keyG s.pixelSize }

/-- Run a finite sequence of per-frame update steps. -/
def run (s : GameState) (l : List Inp) : GameState :=
  l.foldl (fun t i => UpdateScene i t) s

/-! ## Spec-side definitions used to compare the code against the
specification text. -/

/-- The canonical per-pass shader sequence the specification describes
(§4.4), written from the spec words as a function of the enabled set only:
Tint, GaussianBlur, Blur, Underwater, Retro, then Bloom, with the legacy
selector effects afterwards, each effect ending in its copy-back pass and the
whole chain ending in the copy to the back buffer.  The one departure the
code forces (the `else if` attachment, see the C1 counterexample below) is
recorded here: the selector effects run only when `Bloom` is disabled. -/
def specCanonicalOrder (tint gauss blur uw retro bloom : Bool)
    (sel : PostProcess) : List PShader :=
  (if tint then [PShader.tint, PShader.copy] else [])
    ++ (if gauss then [PShader.gaussH, PShader.copy, PShader.gaussV, PShader.copy] else [])
    ++ (if blur then [PShader.blur, PShader.copy] else [])
    ++ (if uw then [PShader.underwater, PShader.copy] else [])
    ++ (if retro then [PShader.pixellate, PShader.copy, PShader.bitColour, PShader.copy] else [])
    ++ (if bloom then
          [PShader.brightFilter, PShader.gaussH, PShader.gaussV, PShader.combine, PShader.copy]
        else if sel = PostProcess.PyramidBlur then [PShader.pyramid, PShader.copy]
        else [])
    ++ [PShader.copy]

/-- The enabled-effect set (the six flags and the legacy selector): the data
the pass sequence is claimed to depend on exclusively. -/
def flagsSel (s : GameState) : Bool × Bool × Bool × Bool × Bool × Bool × PostProcess :=
  (s.Tint, s.Blur, s.GaussianBlur, s.Underwater, s.Retro, s.Bloom, s.sel)

/-- Binding shape of a pass: shader, render target, slot-0 source. -/
def view3 (p : Pass) : PShader × Tex × Option Tex :=
  (p.ps, p.rt, p.src0)

/-- Binding shape of a pass including slot 1 and the uploaded bright-pass
threshold. -/
def bloomView (p : Pass) : PShader × Tex × Option Tex × Option Tex × ℚ :=
  (p.ps, p.rt, p.src0, p.src1, p.buf.brightFilterThreshold)

/-- Whether a pass reads (through either slot) the very texture it renders
to. -/
def aliased (p : Pass) : Bool :=
  (p.src0 == some p.rt) || (p.src1 == some p.rt)

set_option maxHeartbeats 4000000 in
/-- The pass-shader sequence emitted by `PostProcessing` is exactly the
canonical order restricted to the enabled effects (with the selector effects
suppressed by an enabled `Bloom`), for every state and context. -/
theorem map_ps_postProcessing (frameTime : ℚ) (s : GameState) (c : Ctx) :
    ((PostProcessing frameTime s c).1).map Pass.ps
      = specCanonicalOrder s.Tint s.GaussianBlur s.Blur s.Underwater s.Retro s.Bloom s.sel := by
  obtain ⟨tc, tc2, T, B, G, U, R, Bl, sel, bs, bc, bit, px, tm, cs, wg⟩ := s
  cases T <;> cases G <;> cases B <;> cases U <;> cases R <;> cases Bl <;> cases sel <;> rfl

/-- A state in which Bloom is enabled and PyramidBlur is selected
simultaneously. -/
def sBloomPyramid : GameState :=
  { initState with Bloom := true, sel := PostProcess.PyramidBlur }

/-- A state in which Tint and Bloom are enabled. -/
def sTintBloom : GameState :=
  { initState with Tint := true, Bloom := true }

/-- One update step that hits only key 1 (the Tint toggle). -/
def iTint : Inp := { noKeys 0 with key1 := true }

/-- One update step that hits only key 5 (the Bloom toggle). -/
def iBloom : Inp := { noKeys 0 with key5 := true }

/-- C1, counterexample: with Bloom enabled and PyramidBlur selected in the
same frame, the frame's passes are Bloom's passes and the final copy only —
no pyramid-blur pass is issued at all, because in the source the PyramidBlur
branch is an `else if` attached to `if (Bloom)` (`Scene.cpp` lines 894-919).
This refutes the claim that PyramidBlur is applied after Bloom whenever both
are active. -/
theorem c1_pyramid_counterexample :
    ((PostProcessing 0 sBloomPyramid initCtx).1).map Pass.ps
        = [PShader.brightFilter, PShader.gaussH, PShader.gaussV, PShader.combine,
           PShader.copy, PShader.copy]
      ∧ PShader.pyramid ∉ ((PostProcessing 0 sBloomPyramid initCtx).1).map Pass.ps := by
  have h : ((PostProcessing 0 sBloomPyramid initCtx).1).map Pass.ps
      = [PShader.brightFilter, PShader.gaussH, PShader.gaussV, PShader.combine,
         PShader.copy, PShader.copy] := rfl
  exact ⟨h, by rw [h]; simp⟩

/-- C1 (amended): in every frame the issued passes follow the fixed canonical
order Tint, GaussianBlur, Blur, Underwater, Retro, Bloom, PyramidBlur
restricted to the enabled effects — except that the PyramidBlur (and Spiral)
selector effects are skipped whenever Bloom is enabled — and the pass
sequence is a function of the enabled-effect set alone: any two toggle-event
histories that produce the same flag set produce the same passes. -/
theorem c1_canonical_order :
    (∀ (frameTime : ℚ) (s : GameState) (c : Ctx),
        ((PostProcessing frameTime s c).1).map Pass.ps
          = specCanonicalOrder s.Tint s.GaussianBlur s.Blur s.Underwater s.Retro s.Bloom s.sel)
      ∧ ∀ (l1 l2 : List Inp) (frameTime : ℚ) (c : Ctx),
          flagsSel (run initState l1) = flagsSel (run initState l2) →
          ((PostProcessing frameTime (run initState l1) c).1).map Pass.ps
            = ((PostProcessing frameTime (run initState l2) c).1).map Pass.ps := by
  refine ⟨map_ps_postProcessing, fun l1 l2 frameTime c h => ?_⟩
  rw [map_ps_postProcessing, map_ps_postProcessing]
  simp only [flagsSel, Prod.mk.injEq] at h
  obtain ⟨h1, h2, h3, h4, h5, h6, h7⟩ := h
  rw [h1, h2, h3, h4, h5, h6, h7]

/-- C1, witness: the canonical-order equation evaluated with Tint and Bloom
enabled, and toggle-order independence evaluated on hitting key 1 then key 5
versus key 5 then key 1. -/
theorem c1_canonical_order_witness :
    ((PostProcessing 0 sTintBloom initCtx).1).map Pass.ps
        = specCanonicalOrder true false false false false true PostProcess.None
      ∧ ((PostProcessing 0 (run initState [iTint, iBloom]) initCtx).1).map Pass.ps
          = ((PostProcessing 0 (run initState [iBloom, iTint]) initCtx).1).map Pass.ps :=
  ⟨c1_canonical_order.1 0 sTintBloom initCtx,
   c1_canonical_order.2 [iTint, iBloom] [iBloom, iTint] 0 initCtx (by decide)⟩

/-- A state in which only Bloom is enabled. -/
def sBloom : GameState := { initState with Bloom := true }

/-- C2, failing frame: in a frame with only Bloom enabled, starting from a
clean context, the fifth pass issued — the copy-back inside `RenderAndReset`
after Bloom's combine — renders to the scene texture while the scene texture
is still bound as the slot-1 shader source (the combine pass bound it at
slot 1, `Scene.cpp` line 888, and only slot 0 is ever unbound).  Every other
pass of the frame is alias-free. -/
theorem c2_aliasing_at_bloom :
    ((PostProcessing 0 sBloom initCtx).1).map aliased
        = [false, false, false, false, true, false]
      ∧ (((PostProcessing 0 sBloom initCtx).1).map bloomView)[4]?
          = some (PShader.copy, Tex.scene, some Tex.postProcess, some Tex.scene, 7/10) :=
  ⟨rfl, rfl⟩

/-- C3: in a frame with no effect enabled and the selector on `None`, the
render step issues zero post-processing passes, the back buffer afterwards
holds exactly the raw scene image (the scene was rendered straight to it),
and the post-processing routine was never entered (the timer it increments on
entry is untouched). -/
theorem c3_zero_effect_fast_path (frameTime : ℚ) (s : GameState) (c : Ctx)
    (hT : s.Tint = false) (hB : s.Blur = false) (hG : s.GaussianBlur = false)
    (hU : s.Underwater = false) (hR : s.Retro = false) (hBl : s.Bloom = false)
    (hsel : s.sel = PostProcess.None) :
    (RenderScene frameTime s c).1 = []
      ∧ (RenderScene frameTime s c).2.2.mem Tex.backBuffer = Image.sceneRaw
      ∧ (RenderScene frameTime s c).2.1.timer = s.timer := by
  obtain ⟨tc, tc2, T, B, G, U, R, Bl, sel, bs, bc, bit, px, tm, cs, wg⟩ := s
  simp only at hT hB hG hU hR hBl hsel
  subst hT hB hG hU hR hBl hsel
  exact ⟨rfl, rfl, rfl⟩

/-- C3, witness: the zero-effect fast path evaluated at the initial state. -/
theorem c3_zero_effect_fast_path_witness :
    (RenderScene 0 initState initCtx).1 = []
      ∧ (RenderScene 0 initState initCtx).2.2.mem Tex.backBuffer = Image.sceneRaw
      ∧ (RenderScene 0 initState initCtx).2.1.timer = initState.timer :=
  c3_zero_effect_fast_path 0 initState initCtx rfl rfl rfl rfl rfl rfl rfl

set_option maxHeartbeats 1000000 in
/-- C4: whenever Bloom is enabled (whatever else is), the passes from the
first bright-filter draw onward are exactly: the bright-pass threshold filter
with uploaded threshold 0.7 from the scene texture into the bloom texture,
the horizontal Gaussian blur from the bloom texture into the post-process
texture, the vertical Gaussian blur back into the bloom texture, the combine
reading the bloom texture (slot 0) and the pre-bloom scene texture (slot 1)
into the post-process texture, followed by the copy that makes that output
the new current result (post-process to scene texture) and the final copy to
the back buffer. -/
theorem c4_bloom_four_passes (frameTime : ℚ) (s : GameState) (c : Ctx)
    (h : s.Bloom = true) :
    (((PostProcessing frameTime s c).1).dropWhile
        (fun p => !(p.ps == PShader.brightFilter))).map bloomView
      = [(PShader.brightFilter, Tex.bloom, some Tex.scene, c.srv1, 7/10),
         (PShader.gaussH, Tex.postProcess, some Tex.bloom, c.srv1, 7/10),
         (PShader.gaussV, Tex.bloom, some Tex.postProcess, c.srv1, 7/10),
         (PShader.combine, Tex.postProcess, some Tex.bloom, some Tex.scene, 7/10),
         (PShader.copy, Tex.scene, some Tex.postProcess, some Tex.scene, 7/10),
         (PShader.copy, Tex.backBuffer, some Tex.scene, some Tex.scene, 7/10)] := by
  obtain ⟨tc, tc2, T, B, G, U, R, Bl, sel, bs, bc, bit, px, tm, cs, wg⟩ := s
  simp only at h
  subst h
  cases T <;> cases G <;> cases B <;> cases U <;> cases R <;> rfl

/-- C4, witness: the Bloom pass sequence evaluated in a frame with only Bloom
enabled, from a clean context. -/
theorem c4_bloom_four_passes_witness :
    (((PostProcessing 0 sBloom initCtx).1).dropWhile
        (fun p => !(p.ps == PShader.brightFilter))).map bloomView
      = [(PShader.brightFilter, Tex.bloom, some Tex.scene, none, 7/10),
         (PShader.gaussH, Tex.postProcess, some Tex.bloom, none, 7/10),
         (PShader.gaussV, Tex.bloom, some Tex.postProcess, none, 7/10),
         (PShader.combine, Tex.postProcess, some Tex.bloom, some Tex.scene, 7/10),
         (PShader.copy, Tex.scene, some Tex.postProcess, some Tex.scene, 7/10),
         (PShader.copy, Tex.backBuffer, some Tex.scene, some Tex.scene, 7/10)] :=
  c4_bloom_four_passes 0 sBloom initCtx rfl

/-- The blur-radius adjustment never yields a value below its clamp of 5. -/
theorem stepBlurStrength_ge (dec inc : Bool) (v : ℚ) :
    5 ≤ stepBlurStrength dec inc v := by
  simp only [stepBlurStrength]
  split_ifs <;> linarith

/-- The bit-depth / pixel-size adjustment never yields a value below 1. -/
theorem stepClamp1_ge (dec inc : Bool) (v : ℚ) : 1 ≤ stepClamp1 dec inc v := by
  simp only [stepClamp1]
  split_ifs <;> linarith

/-- One update step leaves all three clamped tunables at or above their
minimum, whatever their previous values. -/
theorem updateScene_tunables_clamped (i : Inp) (s : GameState) :
    5 ≤ (UpdateScene i s).blurStrength ∧ 1 ≤ (UpdateScene i s).bitColour
      ∧ 1 ≤ (UpdateScene i s).pixelSize :=
  ⟨stepBlurStrength_ge i.keyComma i.keyPeriod s.blurStrength,
   stepClamp1_ge i.keyV i.keyB s.bitColour,
   stepClamp1_ge i.keyF i.keyG s.pixelSize⟩

/-- The clamp bounds are preserved by any run of update steps. -/
theorem run_tunables_clamped (l : List Inp) (s : GameState)
    (h : 5 ≤ s.blurStrength ∧ 1 ≤ s.bitColour ∧ 1 ≤ s.pixelSize) :
    5 ≤ (run s l).blurStrength ∧ 1 ≤ (run s l).bitColour ∧ 1 ≤ (run s l).pixelSize := by
  induction l generalizing s with
  | nil => exact h
  | cons i t ih => exact ih (UpdateScene i s) (updateScene_tunables_clamped i s)

/-- C5: after any finite sequence of per-frame update steps, with any
combination of increment and decrement events in each step, the blur radius
is never below 5 and the bit-depth and pixel-size tunables are never below
1. -/
theorem c5_parameter_clamps (l : List Inp) :
    5 ≤ (run initState l).blurStrength ∧ 1 ≤ (run initState l).bitColour
      ∧ 1 ≤ (run initState l).pixelSize :=
  run_tunables_clamped l initState (by refine ⟨?_, ?_, ?_⟩ <;> decide)

/-- One hue step stays within `[0, 360]` given a nonnegative rate, elapsed
time and previous value. -/
theorem stepHue_mem (rate frameTime x : ℚ) (hr : 0 ≤ rate) (hf : 0 ≤ frameTime)
    (hx : 0 ≤ x) : 0 ≤ stepHue rate frameTime x ∧ stepHue rate frameTime x ≤ 360 := by
  simp only [stepHue]
  split_ifs with h
  · norm_num
  · have hm : 0 ≤ frameTime * rate := mul_nonneg hf hr
    constructor
    · linarith
    · linarith [not_lt.mp (by simpa using h)]

/-- One update step with nonnegative frame time keeps both stored hue values
inside `[0, 360]`. -/
theorem updateScene_hue_mem (i : Inp) (s : GameState) (hf : 0 ≤ i.ft)
    (h1 : 0 ≤ s.tintColour.x) (h2 : 0 ≤ s.tintColour2.x) :
    (0 ≤ (UpdateScene i s).tintColour.x ∧ (UpdateScene i s).tintColour.x ≤ 360)
      ∧ (0 ≤ (UpdateScene i s).tintColour2.x ∧ (UpdateScene i s).tintColour2.x ≤ 360) :=
  ⟨stepHue_mem 20 i.ft s.tintColour.x (by norm_num) hf h1,
   stepHue_mem 50 i.ft s.tintColour2.x (by norm_num) hf h2⟩

/-- The `[0, 360]` hue bounds hold after any run of update steps with
nonnegative frame times, from any start whose hues satisfy them. -/
theorem run_hue_mem (l : List Inp) (s : GameState)
    (h : (0 ≤ s.tintColour.x ∧ s.tintColour.x ≤ 360)
      ∧ (0 ≤ s.tintColour2.x ∧ s.tintColour2.x ≤ 360))
    (hf : ∀ i ∈ l, 0 ≤ i.ft) :
    (0 ≤ (run s l).tintColour.x ∧ (run s l).tintColour.x ≤ 360)
      ∧ (0 ≤ (run s l).tintColour2.x ∧ (run s l).tintColour2.x ≤ 360) := by
  induction l generalizing s with
  | nil => exact h
  | cons i t ih =>
      exact ih (UpdateScene i s)
        (updateScene_hue_mem i s (hf i (List.mem_cons_self i t)) h.1.1 h.2.1)
        (fun j hj => hf j (List.mem_cons_of_mem i hj))

/-- C6, counterexample: a single update step of 9 seconds (during which the
faster hue advances 450 degrees, well past 360) leaves the first stored hue
at exactly 360, which is outside `[0, 360)` — the reset fires only on values
strictly above 360 (`Scene.cpp` line 1023). -/
theorem c6_hue_counterexample :
    (run initState [noKeys 9]).tintColour.x = 360
      ∧ ¬ (run initState [noKeys 9]).tintColour.x < 360
      ∧ (run initState [noKeys 9]).tintColour2.x = 0 := by
  have htc : initState.tintColour.x = 180 := by
    norm_num [initState, RGBToHSL, Min, Max]
  have htc2 : initState.tintColour2.x = 300 := by
    norm_num [initState, RGBToHSL, Min, Max]
  have e1 : (run initState [noKeys 9]).tintColour.x
      = stepHue 20 9 initState.tintColour.x := rfl
  have e2 : (run initState [noKeys 9]).tintColour2.x
      = stepHue 50 9 initState.tintColour2.x := rfl
  rw [e1, e2, htc, htc2]
  norm_num [stepHue]

/-- C6 (amended): each update step advances each stored hue by its fixed rate
(20 and 50 degrees per second) times the elapsed frame time and resets it to
0 once it passes 360, so after any sequence of update steps with nonnegative
frame times both stored hues lie in the closed interval `[0, 360]` — they
never grow unboundedly, but the endpoint 360 itself is attainable. -/
theorem c6_hue_bounded (l : List Inp) (hf : ∀ i ∈ l, 0 ≤ i.ft) :
    (0 ≤ (run initState l).tintColour.x ∧ (run initState l).tintColour.x ≤ 360)
      ∧ (0 ≤ (run initState l).tintColour2.x ∧ (run initState l).tintColour2.x ≤ 360) :=
  run_hue_mem l initState
    (by refine ⟨⟨?_, ?_⟩, ?_, ?_⟩ <;> norm_num [initState, RGBToHSL, Min, Max]) hf

/-- C6, witness: the hue bounds evaluated on the 9-second step that parks the
first hue exactly at 360. -/
theorem c6_hue_bounded_witness :
    (∀ i ∈ [noKeys 9], 0 ≤ i.ft)
      ∧ ((0 ≤ (run initState [noKeys 9]).tintColour.x
            ∧ (run initState [noKeys 9]).tintColour.x ≤ 360)
          ∧ (0 ≤ (run initState [noKeys 9]).tintColour2.x
            ∧ (run initState [noKeys 9]).tintColour2.x ≤ 360)) :=
  ⟨by decide, c6_hue_bounded [noKeys 9] (by decide)⟩

/-- One adjustment step multiplies the bell-curve sharpness by 1.1 to the
power (+1 per increment, −1 per decrement). -/
theorem stepBlurCurve_eq (dec inc : Bool) (v : ℚ) :
    stepBlurCurve dec inc v
      = v * (11/10 : ℚ) ^ ((if inc then (1 : ℤ) else 0) - (if dec then 1 else 0)) := by
  have hne : (11/10 : ℚ) ≠ 0 := by norm_num
  cases dec <;> cases inc <;>
    simp [stepBlurCurve, div_eq_mul_inv, zpow_sub₀ hne, zpow_one, mul_assoc]

/-- Number of steps in which a given key was held. -/
def heldCount (f : Inp → Bool) (l : List Inp) : ℕ := (l.filter f).length

/-- C9: for every starting value and any interleaving of n increment events
(key L) and m decrement events (key K) across a run of update steps, the
bell-curve sharpness tunable ends at exactly its start times 1.1^(n−m):
each decrement divides by exactly 1.1, each increment multiplies by exactly
1.1, and no clamp is applied in either direction. -/
theorem c9_blurcurve_exponential (s : GameState) (l : List Inp) :
    (run s l).blurCurve
      = s.blurCurve * (11/10 : ℚ)
          ^ ((heldCount (fun i => i.keyL) l : ℤ) - (heldCount (fun i => i.keyK) l : ℤ)) := by
  have hne : (11/10 : ℚ) ≠ 0 := by norm_num
  induction l generalizing s with
  | nil => simp [run, heldCount]
  | cons i t ih =>
      have h1 : (run s (i :: t)).blurCurve = (run (UpdateScene i s) t).blurCurve := rfl
      have h2 : (UpdateScene i s).blurCurve = stepBlurCurve i.keyK i.keyL s.blurCurve := rfl
      have hexp : ((if i.keyL then (1 : ℤ) else 0) - (if i.keyK then (1 : ℤ) else 0))
          + ((heldCount (fun i => i.keyL) t : ℤ) - (heldCount (fun i => i.keyK) t : ℤ))
          = ((heldCount (fun i => i.keyL) (i :: t) : ℤ)
              - (heldCount (fun i => i.keyK) (i :: t) : ℤ)) := by
        simp only [heldCount, List.filter_cons]
        split_ifs <;> push_cast [List.length_cons] <;> omega
      rw [h1, ih, h2, stepBlurCurve_eq, mul_assoc, ← zpow_add₀ hne, hexp]

/-- The pass list of `PostProcessing` is the pass list of the effect chain
followed by the copy of the scene texture to the back buffer. -/
theorem postProcessing_trace (frameTime : ℚ) (s : GameState) (c : Ctx) :
    (PostProcessing frameTime s c).1
      = (blocksPart frameTime s c).1
        ++ [⟨PShader.copy, Tex.backBuffer, some Tex.scene,
             (blocksPart frameTime s c).2.2.srv1, (blocksPart frameTime s c).2.2.buf⟩] := rfl

/-- C7: the scene texture is the running frame result.  For every effect
block, in every state and context: the block's first pass reads the scene
texture through slot 0, and its last pass is the copy of the post-process
texture back into the scene texture; and the final pass of the whole
post-processing routine is always the copy that reads the scene texture into
the back buffer. -/
theorem c7_scene_buffer_discipline :
    (∀ (s : GameState) (c : Ctx),
        ((TintBlock s c).1.head?).map view3
            = some (PShader.tint, Tex.postProcess, some Tex.scene)
          ∧ ((TintBlock s c).1.getLast?).map view3
            = some (PShader.copy, Tex.scene, some Tex.postProcess))
      ∧ (∀ (s : GameState) (c : Ctx),
          ((GaussBlock s c).1.head?).map view3
              = some (PShader.gaussH, Tex.postProcess, some Tex.scene)
            ∧ ((GaussBlock s c).1.getLast?).map view3
              = some (PShader.copy, Tex.scene, some Tex.postProcess))
      ∧ (∀ (s : GameState) (c : Ctx),
          ((BlurBlock s c).1.head?).map view3
              = some (PShader.blur, Tex.postProcess, some Tex.scene)
            ∧ ((BlurBlock s c).1.getLast?).map view3
              = some (PShader.copy, Tex.scene, some Tex.postProcess))
      ∧ (∀ (s : GameState) (c : Ctx),
          ((UnderwaterBlock s c).1.head?).map view3
              = some (PShader.underwater, Tex.postProcess, some Tex.scene)
            ∧ ((UnderwaterBlock s c).1.getLast?).map view3
              = some (PShader.copy, Tex.scene, some Tex.postProcess))
      ∧ (∀ (s : GameState) (c : Ctx),
          ((RetroBlock s c).1.head?).map view3
              = some (PShader.pixellate, Tex.postProcess, some Tex.scene)
            ∧ ((RetroBlock s c).1.getLast?).map view3
              = some (PShader.copy, Tex.scene, some Tex.postProcess))
      ∧ (∀ (s : GameState) (c : Ctx),
          ((BloomBlock s c).1.head?).map view3
              = some (PShader.brightFilter, Tex.bloom, some Tex.scene)
            ∧ ((BloomBlock s c).1.getLast?).map view3
              = some (PShader.copy, Tex.scene, some Tex.postProcess))
      ∧ (∀ (s : GameState) (c : Ctx),
          ((PyramidBlock s c).1.head?).map view3
              = some (PShader.pyramid, Tex.postProcess, some Tex.scene)
            ∧ ((PyramidBlock s c).1.getLast?).map view3
              = some (PShader.copy, Tex.scene, some Tex.postProcess))
      ∧ ∀ (frameTime : ℚ) (s : GameState) (c : Ctx),
          (((PostProcessing frameTime s c).1).getLast?).map view3
            = some (PShader.copy, Tex.backBuffer, some Tex.scene) := by
  refine ⟨fun s c => ⟨rfl, rfl⟩, fun s c => ⟨rfl, rfl⟩, fun s c => ⟨rfl, rfl⟩,
    fun s c => ⟨rfl, rfl⟩, fun s c => ⟨rfl, rfl⟩, fun s c => ⟨rfl, rfl⟩,
    fun s c => ⟨rfl, rfl⟩, fun frameTime s c => ?_⟩
  rw [postProcessing_trace, List.getLast?_append_cons]
  rfl

/-- The compositor state the render step may only read: the six effect-enable
flags and the four tunables. -/
def controlsOf (s : GameState) :
    Bool × Bool × Bool × Bool × Bool × Bool × ℚ × ℚ × ℚ × ℚ :=
  (s.Tint, s.Blur, s.GaussianBlur, s.Underwater, s.Retro, s.Bloom,
   s.blurStrength, s.blurCurve, s.bitColour, s.pixelSize)

set_option maxHeartbeats 4000000 in
/-- C8: the render step (scene rendering plus post-processing) leaves the six
effect-enable flags and the blur radius, blur falloff curve, bit-depth level
and pixel block size tunables exactly as it found them, for every frame time,
state and context. -/
theorem c8_render_readonly (frameTime : ℚ) (s : GameState) (c : Ctx) :
    controlsOf (RenderScene frameTime s c).2.1 = controlsOf s := by
  obtain ⟨tc, tc2, T, B, G, U, R, Bl, sel, bs, bc, bit, px, tm, cs, wg⟩ := s
  cases T <;> cases G <;> cases B <;> cases U <;> cases R <;> cases Bl <;> cases sel <;> rfl

/-- The rational 0 or 1 corresponding to a Boolean colour component. -/
def bitQ (b : Bool) : ℚ := if b then 1 else 0

/-- C10, counterexample: converting the colour (0, 1, 0) to HSL and back does
not return it — it returns (0, 0, 1) instead, because `RGBToHSL` reads the
`y` component as blue and the `z` component as green while `HSLToRGB` writes
green into `y` and blue into `z` (`Scene.cpp` lines 214-216 and 312). -/
theorem c10_roundtrip_counterexample :
    HSLToRGB (RGBToHSL ⟨0, 1, 0⟩) = ⟨0, 0, 1⟩
      ∧ HSLToRGB (RGBToHSL ⟨0, 1, 0⟩) ≠ ⟨0, 1, 0⟩ := by
  constructor
  · norm_num [RGBToHSL, HSLToRGB, Min, Max, ratTrunc, qfmod]
  · intro h
    have := congrArg CVector3.y h
    norm_num [RGBToHSL, HSLToRGB, Min, Max, ratTrunc, qfmod] at this

/-- C10 (amended): the conversion pair does not round-trip; instead, for
every colour with components in {0, 1}, converting to HSL and back returns
the colour with its `y` and `z` components swapped — the two conversions
disagree on which vector component is green and which is blue. -/
theorem c10_roundtrip_swaps (a b c : Bool) :
    HSLToRGB (RGBToHSL ⟨bitQ a, bitQ b, bitQ c⟩) = ⟨bitQ a, bitQ c, bitQ b⟩ := by
  cases a <;> cases b <;> cases c <;>
    norm_num [RGBToHSL, HSLToRGB, Min, Max, ratTrunc, qfmod, bitQ]

end Scene
